import Mathlib

/-!
Verification development for `stock-ticker.py`, a scrolling stock ticker
overlay.  The definitions below are a shallow embedding of the program:

* `parseQuote` embeds the parsing/derivation tail of `StockStore._fetch_one`
  (lines 143-155): filtering null closes, the two-closes minimum, the
  change / percent computation and the `up` flag.
* `fetch_one` / `fetch_all` embed `StockStore._fetch_one` / `_fetch_all`
  (lines 124-155); the HTTP layer is abstracted as a response function
  `String → SymResponse` giving, per symbol, either a 429, another
  exception, or the parsed list of daily closes.
* `fetchStep` / `fetch` embed the retry loop of `StockStore.fetch`
  (lines 109-122); the outcome of an attempt is `Except` (an exception raised
  by `_fetch_all`, or its returned quote list).  Side effects (stderr
  prints and `time.sleep(RETRY_DELAY)`) are recorded as an event trace.
* `Config.save` / `Config.load` / `setConfigAttr` embed the JSON
  persistence of `Config` (lines 52-94); file contents are an optional
  association list (`none` models the caught `FileNotFoundError` /
  `JSONDecodeError` cases).  `setConfigAttr` models
  `if hasattr(self, k): setattr(self, k, v)` over the attributes of the
  `Config` object: its seven data fields; its two read-only properties
  and the three inherited data-descriptor dunders `__class__`,
  `__dict__`, `__weakref__`, for which `setattr` with a number or string
  list raises (`AttributeError` / `TypeError`), uncaught by `load`; and
  its non-data attributes (methods such as `load`, `save`, and inherited
  dunders such as `__doc__`), where `setattr` just shadows the class
  attribute with an instance attribute, leaving every config field
  unchanged — observationally the same as a key that fails `hasattr`
  and is skipped.
* `on_tick` embeds the scroll advance of `TickerWindow.on_tick`
  (lines 431-437).
* `pymod` / `tileStart` / `tileCovers` embed the tiling pass of
  `TickerWindow.on_draw` (lines 464-470): the start position
  `scroll_x % total_w - total_w` (Python float `%`, nonnegative for a
  positive modulus) and the while-loop drawing a copy of width
  `total_w` at each cursor position `< screen_width`.
* `itemColor` / `itemArrow` embed the per-quote color and arrow glyph
  choice of `TickerWindow._draw_items` (lines 501, 526-545).

Machine floats are modelled as rationals.
-/

/-- One stock quote, the dict built by `StockStore._fetch_one`
(lines 152-155): keys `symbol`, `price`, `change`, `pct`, `up`. -/
structure Quote where
  symbol : String
  price : ℚ
  change : ℚ
  pct : ℚ
  up : Bool
deriving DecidableEq

/-- The parsing/derivation tail of `StockStore._fetch_one` (lines 143-155):
drop null closes, require at least two, take `closes[-1]` and `closes[-2]`,
compute `change`, guard the percent against a zero previous close
(`pct = (change / prev) * 100 if prev else 0`), and set `up = change >= 0`. -/
def parseQuote (symbol : String) (closes : List (Option ℚ)) : Option Quote :=
  let cs := closes.filterMap id
  if cs.length < 2 then none
  else
    let cur := cs.getD (cs.length - 1) 0
    let prev := cs.getD (cs.length - 2) 0
    let change := cur - prev
    let pct := if prev ≠ 0 then change / prev * 100 else 0
    some { symbol := symbol, price := cur, change := change, pct := pct,
           up := decide (change ≥ 0) }

/-- The upstream response for one symbol, abstracting the HTTP layer of
`StockStore._fetch_one`: a 429 status, any other exception
(`raise_for_status`, timeout, malformed JSON), or the parsed adjclose
array. -/
inductive SymResponse where
  | rateLimited : SymResponse
  | failure : String → SymResponse
  | chart : List (Option ℚ) → SymResponse

/-- Result of `StockStore._fetch_one` as seen by `_fetch_all`:
the `"RATE_LIMITED"` sentinel, a raised exception, `None` (fewer than two
valid closes), or a quote dict. -/
inductive FetchOneResult where
  | rateLimited : FetchOneResult
  | failed : String → FetchOneResult
  | dropped : FetchOneResult
  | quote : Quote → FetchOneResult
deriving DecidableEq

/-- Embedding of `StockStore._fetch_one` (lines 136-155) over an abstract
response function. -/
def fetch_one (resp : String → SymResponse) (symbol : String) : FetchOneResult :=
  match resp symbol with
  | .rateLimited => .rateLimited
  | .failure e => .failed e
  | .chart closes =>
    match parseQuote symbol closes with
    | none => .dropped
    | some q => .quote q

/-- Embedding of `StockStore._fetch_all` (lines 124-134): iterate the configured symbols
in order, skip `None` results, raise `RuntimeError("rate limited (429)")`
on the `"RATE_LIMITED"` sentinel, let any other per-symbol exception
propagate, and return the accumulated quote list.  An exception discards
every quote accumulated so far in the attempt.  The 0.5 s inter-symbol
sleep has no effect on the returned value and is not recorded. -/
def fetch_all (resp : String → SymResponse) : List String → Except String (List Quote)
  | [] => .ok []
  | sym :: rest =>
    match fetch_one resp sym with
    | .dropped => fetch_all resp rest
    | .rateLimited => .error "rate limited (429)"
    | .failed e => .error e
    | .quote q => (fetch_all resp rest).map (fun qs => q :: qs)

/-- Constant `MAX_RETRIES` (line 43). -/
def MAX_RETRIES : ℕ := 3

/-- Constant `RETRY_DELAY` (line 44), seconds. -/
def RETRY_DELAY : ℕ := 30

/-- A stderr log line of `StockStore.fetch`. -/
inductive LogMsg where
  | fetched : ℕ → LogMsg
  | attemptFailed : ℕ → String → LogMsg
  | allFailed : LogMsg
deriving DecidableEq

/-- An observable side effect of `StockStore.fetch`: a stderr print or a
`time.sleep` of the given number of seconds. -/
inductive Event where
  | logged : LogMsg → Event
  | slept : ℕ → Event
deriving DecidableEq

/-- The mutable state touched by `StockStore.fetch`: the stored snapshot
`self.quotes` plus the trace of side effects of the call. -/
structure FetchState where
  quotes : List Quote
  events : List Event
deriving DecidableEq

/-- The body of the `for attempt in range(1, MAX_RETRIES + 1)` loop of
`StockStore.fetch` (lines 110-122), over the remaining attempt numbers.
`outcome a` is what `self._fetch_all()` does on attempt `a`: `.error e`
when it raises, `.ok qs` when it returns `qs`.  A nonempty result is
published and the loop returns; an empty result falls through to the next
attempt with no sleep; an exception is logged and, before any non-final
attempt, `RETRY_DELAY` seconds are slept.  When the loop exhausts all
attempts, the final failure is logged and the snapshot kept. -/
def fetchStep (outcome : ℕ → Except String (List Quote)) :
    List ℕ → FetchState → FetchState
  | [], st => { st with events := st.events ++ [.logged .allFailed] }
  | attempt :: rest, st =>
    match outcome attempt with
    | .ok qs =>
      if qs.isEmpty then
        fetchStep outcome rest st
      else
        { st with quotes := qs, events := st.events ++ [.logged (.fetched qs.length)] }
    | .error e =>
      fetchStep outcome rest
        { st with events := st.events ++ [.logged (.attemptFailed attempt e)] ++
            (if attempt < MAX_RETRIES then [.slept RETRY_DELAY] else []) }

/-- Embedding of `StockStore.fetch` (lines 109-122).  Total: no exception reaches the
caller. -/
def fetch (outcome : ℕ → Except String (List Quote)) (st : FetchState) : FetchState :=
  fetchStep outcome (List.range' 1 MAX_RETRIES) st

/-- Constant `COLOR_UP` (line 39). -/
def COLOR_UP : ℚ × ℚ × ℚ := (0, 9/10, 1/5)

/-- Constant `COLOR_DOWN` (line 40). -/
def COLOR_DOWN : ℚ × ℚ × ℚ := (9/10, 3/20, 3/20)

/-- Constant `COLOR_FLAT` (line 41). -/
def COLOR_FLAT : ℚ × ℚ × ℚ := (7/10, 7/10, 7/10)

/-- The per-quote color choice of `TickerWindow._draw_items`
(lines 527-529): `COLOR_UP if q["up"] else COLOR_DOWN`, overridden to
`COLOR_FLAT` when `q["change"] == 0`. -/
def itemColor (q : Quote) : ℚ × ℚ × ℚ :=
  let color := if q.up then COLOR_UP else COLOR_DOWN
  if q.change = 0 then COLOR_FLAT else color

/-- The arrow glyph of `TickerWindow._draw_items` (line 544, same choice
on line 501): `"▲" if q["up"] else "▼"`. -/
def itemArrow (q : Quote) : Char :=
  if q.up then '▲' else '▼'

/-- Embedding of `TickerWindow.on_tick` (lines 431-437):
`scroll_x -= scroll_speed`,
then if `content_width > 0 and scroll_x <= -content_width`, add
`content_width` back once. -/
def on_tick (scroll_x scroll_speed content_width : ℚ) : ℚ :=
  let s := scroll_x - scroll_speed
  if content_width > 0 ∧ s ≤ -content_width then s + content_width else s

/-- The Python `%` on reals for a nonzero modulus:
`a % b = a - b * floor(a / b)`, whose sign follows the divisor. -/
def pymod (a b : ℚ) : ℚ := a - b * (⌊a / b⌋ : ℚ)

/-- The tiling start of `TickerWindow.on_draw` (line 466):
`start_x = self.scroll_x % total_w - total_w`. -/
def tileStart (scroll_x total_w : ℚ) : ℚ := pymod scroll_x total_w - total_w

/-- Point `p` is painted by the tiling loop of `TickerWindow.on_draw`
(lines 466-470): some copy, drawn at cursor position
`tileStart + k * total_w` with the cursor still left of `screen_width`,
spans `p` within its width `total_w`. -/
def tileCovers (scroll_x total_w screen_width p : ℚ) : Prop :=
  ∃ k : ℕ, tileStart scroll_x total_w + k * total_w < screen_width ∧
    tileStart scroll_x total_w + k * total_w ≤ p ∧
    p < tileStart scroll_x total_w + k * total_w + total_w

/-- The JSON values the config file traffics in: numbers and string
lists. -/
inductive JVal where
  | num : ℚ → JVal
  | strs : List String → JVal
deriving DecidableEq

/-- The `Config` object (lines 52-94): the seven persisted data fields.
Fields hold JSON values because `setattr` in `Config.load` is untyped. -/
structure Config where
  symbols : JVal
  ticker_font_size : JVal
  scroll_speed : JVal
  fps : JVal
  item_gap : JVal
  bg_alpha : JVal
  update_interval_min : JVal
deriving DecidableEq

/-- Constant `DEFAULTS["symbols"]` (lines 29-30). -/
def DEFAULT_SYMBOLS : List String :=
  ["AAPL", "GOOGL", "MSFT", "AMZN", "TSLA", "META", "NVDA", "SPY", "QQQ", "BTC-USD"]

/-- State of `Config.__init__` before `self.load()` (lines 55-62): the `DEFAULTS`
dict of lines 28-37. -/
def defaultConfig : Config :=
  { symbols := .strs DEFAULT_SYMBOLS
    ticker_font_size := .num 20
    scroll_speed := .num 1
    fps := .num 40
    item_gap := .num 40
    bg_alpha := .num (11/20)
    update_interval_min := .num 15 }

/-- The `price_font_size` property (lines 65-67):
`max(10, ticker_font_size - 6)`; `none` when the field is not numeric. -/
def Config.price_font_size (c : Config) : Option ℚ :=
  match c.ticker_font_size with
  | .num n => some (max 10 (n - 6))
  | _ => none

/-- The `bar_height` property (lines 69-71): `ticker_font_size + 24`;
`none` when the field is not numeric. -/
def Config.bar_height (c : Config) : Option ℚ :=
  match c.ticker_font_size with
  | .num n => some (n + 24)
  | _ => none

/-- One iteration of the `for k, v in d.items()` loop of `Config.load`
(lines 77-79): `if hasattr(self, k): setattr(self, k, v)`.  The seven
data-field keys are set.  The read-only properties `price_font_size` and
`bar_height` have `hasattr` true but `setattr` raises `AttributeError`
(uncaught by `load`); likewise the inherited data descriptors
`__weakref__` (not writable: `AttributeError`) and `__class__` /
`__dict__` (a number or string-list value has the wrong type:
`TypeError`), all uncaught.  A non-data attribute name (a method such as
`load` or `save`, or an inherited dunder such as `__doc__`) has
`hasattr` true and `setattr` shadows it with an instance attribute,
leaving all config fields unchanged, and any other key fails `hasattr`
and is skipped: both leave `c` as is. -/
def setConfigAttr (c : Config) (k : String) (v : JVal) : Except String Config :=
  if k = "symbols" then .ok { c with symbols := v }
  else if k = "ticker_font_size" then .ok { c with ticker_font_size := v }
  else if k = "scroll_speed" then .ok { c with scroll_speed := v }
  else if k = "fps" then .ok { c with fps := v }
  else if k = "item_gap" then .ok { c with item_gap := v }
  else if k = "bg_alpha" then .ok { c with bg_alpha := v }
  else if k = "update_interval_min" then .ok { c with update_interval_min := v }
  else if k = "price_font_size" ∨ k = "bar_height" then .error "AttributeError"
  else if k = "__weakref__" then .error "AttributeError"
  else if k = "__class__" ∨ k = "__dict__" then .error "TypeError"
  else .ok c

/-- The `for k, v in d.items()` loop of `Config.load` (lines 77-79). -/
def loadItems (c : Config) : List (String × JVal) → Except String Config
  | [] => .ok c
  | (k, v) :: rest =>
    match setConfigAttr c k v with
    | .ok c2 => loadItems c2 rest
    | .error e => .error e

/-- Embedding of `Config.load` (lines 73-81).  `none` models the file contents when
`open` raises `FileNotFoundError` or `json.load` raises
`JSONDecodeError`, both caught and ignored, leaving `self` unchanged. -/
def Config.load (c : Config) (file : Option (List (String × JVal))) :
    Except String Config :=
  match file with
  | none => .ok c
  | some d => loadItems c d

/-- Embedding of `Config.save` (lines 83-94): the dict written to the config file, in
insertion order. -/
def Config.save (c : Config) : List (String × JVal) :=
  [("symbols", c.symbols),
   ("ticker_font_size", c.ticker_font_size),
   ("scroll_speed", c.scroll_speed),
   ("fps", c.fps),
   ("item_gap", c.item_gap),
   ("bg_alpha", c.bg_alpha),
   ("update_interval_min", c.update_interval_min)]

/-- The seven persisted config field keys (lines 84-92). -/
def configFieldKeys : List String :=
  ["symbols", "ticker_font_size", "scroll_speed", "fps", "item_gap",
   "bg_alpha", "update_interval_min"]

/-- The read-only properties of `Config` (lines 65-71). -/
def configPropertyKeys : List String := ["price_font_size", "bar_height"]

/-- The inherited data-descriptor dunder attributes of a `Config` object
on which `setattr` raises for the value shapes the config file holds. -/
def configDunderKeys : List String := ["__weakref__", "__class__", "__dict__"]

/-- The quote a symbol contributes to the snapshot, if any. -/
def quoteOf (resp : String → SymResponse) (s : String) : Option Quote :=
  match fetch_one resp s with
  | .quote q => some q
  | _ => none


/-! ## Theorems -/

/-- C7: on every animation tick the scroll offset decreases by
`scroll_speed`; then, if `content_width > 0` and the decreased offset is
`≤ -content_width`, `content_width` is added back exactly once; an offset
reaching exactly `-content_width` on a tick wraps to `0` on that tick. -/
theorem on_tick_wrap_behavior (x sp cw : ℚ) :
    (cw > 0 → x - sp = -cw → on_tick x sp cw = 0) ∧
    (cw > 0 → x - sp ≤ -cw → on_tick x sp cw = (x - sp) + cw) ∧
    (¬(cw > 0 ∧ x - sp ≤ -cw) → on_tick x sp cw = x - sp) := by
  refine ⟨fun hcw heq => ?_, fun hcw hle => ?_, fun hn => ?_⟩ <;>
    simp only [on_tick]
  · rw [if_pos ⟨hcw, by rw [heq]⟩, heq]; ring
  · rw [if_pos ⟨hcw, hle⟩]
  · rw [if_neg hn]

/-- Witness for C7 at `scroll_x = -2`, `scroll_speed = 1`,
`content_width = 3`. -/
theorem on_tick_wrap_behavior_witness : on_tick (-2) 1 3 = 0 :=
  (on_tick_wrap_behavior (-2) 1 3).1 (by norm_num) (by norm_num)

/-- C8: saving any `Config` and loading the saved dict into a fresh
(default-initialised) `Config` restores every field exactly. -/
theorem config_save_load_roundtrip (c : Config) :
    Config.load defaultConfig (some (Config.save c)) = .ok c := by
  cases c; rfl

/-- C9 counterexample: a persisted file whose only key is
`price_font_size` — not one of the seven config fields — makes
`Config.load` raise `AttributeError` (setattr on a read-only property)
instead of ignoring the key, so loading does not succeed. -/
theorem load_property_key_raises :
    Config.load defaultConfig (some [("price_font_size", .num 5)]) =
      .error "AttributeError" := rfl

/-- C9 amended: `Config.load` ignores any key that names neither a config
field nor a data-descriptor attribute of `Config` — its read-only
properties and the inherited dunders `__class__`, `__dict__`,
`__weakref__` — (loading succeeds and every field keeps its prior
value), and a missing file or malformed JSON leaves every field
unchanged (hence at its default on a fresh `Config`) without raising; a
key naming such a descriptor, however, raises. -/
theorem config_load_ignores_unknown_keys (c : Config) (d : List (String × JVal))
    (hd : ∀ kv ∈ d, kv.1 ∉ configFieldKeys ∧ kv.1 ∉ configPropertyKeys ∧
       kv.1 ∉ configDunderKeys) :
    Config.load c (some d) = .ok c ∧ Config.load c none = .ok c := by
  refine ⟨?_, rfl⟩
  induction d generalizing c with
  | nil => rfl
  | cons kv rest ih =>
    obtain ⟨h1, h2, h3⟩ := hd kv (List.mem_cons_self kv rest)
    simp only [configFieldKeys, configPropertyKeys, configDunderKeys,
      List.mem_cons, List.not_mem_nil, or_false, not_or] at h1 h2 h3
    obtain ⟨n1, n2, n3, n4, n5, n6, n7⟩ := h1
    obtain ⟨n8, n9⟩ := h2
    obtain ⟨n10, n11, n12⟩ := h3
    have hset : setConfigAttr c kv.1 kv.2 = .ok c := by
      simp only [setConfigAttr, if_neg n1, if_neg n2, if_neg n3, if_neg n4,
        if_neg n5, if_neg n6, if_neg n7, if_neg (not_or.mpr ⟨n8, n9⟩),
        if_neg n10, if_neg (not_or.mpr ⟨n11, n12⟩)]
    show loadItems c (kv :: rest) = .ok c
    obtain ⟨k, v⟩ := kv
    simp only [loadItems, hset]
    exact ih c fun kv hkv => hd kv (List.mem_cons_of_mem _ hkv)

/-- Witness for the amended theorem of C9: an unrelated key `foo` is ignored
and a missing/malformed file leaves the defaults. -/
theorem config_load_ignores_unknown_keys_witness :
    Config.load defaultConfig (some [("foo", .num 1)]) = .ok defaultConfig ∧
      Config.load defaultConfig none = .ok defaultConfig :=
  config_load_ignores_unknown_keys defaultConfig [("foo", JVal.num 1)] (by decide)

/-- Evaluation of `parseQuote` on exactly two non-null closes. -/
theorem parseQuote_pair (s : String) (a b : ℚ) :
    parseQuote s [some a, some b] =
      some { symbol := s, price := b, change := b - a,
             pct := if a ≠ 0 then (b - a) / a * 100 else 0,
             up := decide (b - a ≥ 0) } := by
  simp [parseQuote]

/-- C4 counterexample: a quote parsed from two equal closes has
`change = 0` and renders with the flat gray color, but its `up` flag is
`true` and the arrow glyph drawn for it is `▲` — the up arrow — so the up
classification does apply to a zero change. -/
theorem change_zero_renders_up_arrow :
    parseQuote "X" [some 100, some 100] = some ⟨"X", 100, 0, 0, true⟩ ∧
    itemColor ⟨"X", 100, 0, 0, true⟩ = COLOR_FLAT ∧
    Quote.up ⟨"X", 100, 0, 0, true⟩ = true ∧
    itemArrow ⟨"X", 100, 0, 0, true⟩ = '▲' := by
  refine ⟨?_, rfl, rfl, rfl⟩
  rw [parseQuote_pair]
  norm_num

/-- Every quote emitted by `_fetch_one` has `up = (change >= 0)`. -/
theorem parseQuote_up_eq (s : String) (closes : List (Option ℚ)) (q : Quote)
    (h : parseQuote s closes = some q) : q.up = decide (0 ≤ q.change) := by
  simp only [parseQuote] at h
  split at h
  · exact absurd h (by simp)
  · rw [Option.some.injEq] at h
    subst h
    simp [ge_iff_le]

/-- C4 amended: a zero change renders with the flat gray color, and the
up/down colors are used exactly for positive/negative changes; but the
stored `up` flag of the quote is `change ≥ 0` (so `true` at zero) and the arrow glyph
is `▲` exactly when `change ≥ 0`, so a zero-change quote is drawn with
the up arrow. -/
theorem direction_flat_color_up_arrow (s : String) (closes : List (Option ℚ))
    (q : Quote) (h : parseQuote s closes = some q) :
    itemColor q =
      (if q.change = 0 then COLOR_FLAT
       else if 0 < q.change then COLOR_UP else COLOR_DOWN) ∧
    itemArrow q = (if 0 ≤ q.change then '▲' else '▼') ∧
    (q.change = 0 → itemColor q = COLOR_FLAT ∧ q.up = true ∧ itemArrow q = '▲') := by
  have hup := parseQuote_up_eq s closes q h
  have harrow : itemArrow q = (if 0 ≤ q.change then '▲' else '▼') := by
    simp only [itemArrow, hup]
    by_cases hc : 0 ≤ q.change <;> simp [hc]
  have hcolor : itemColor q =
      (if q.change = 0 then COLOR_FLAT
       else if 0 < q.change then COLOR_UP else COLOR_DOWN) := by
    rcases lt_trichotomy q.change 0 with hc | hc | hc
    · simp [itemColor, hup, hc.ne, not_le.mpr hc, not_lt.mpr hc.le]
    · simp [itemColor, hup, hc]
    · simp [itemColor, hup, hc.ne', hc.le, hc]
  refine ⟨hcolor, harrow, fun hc0 => ⟨?_, ?_, ?_⟩⟩
  · rw [hcolor, if_pos hc0]
  · rw [hup, hc0]; simp
  · rw [harrow, if_pos (le_of_eq hc0.symm)]

/-- Witness for the amended theorem of C4 at the zero-change quote parsed from
closes `[100, 100]`. -/
theorem direction_flat_color_up_arrow_witness :
    itemColor ⟨"X", 100, 0, 0, true⟩ = COLOR_FLAT ∧
    Quote.up ⟨"X", 100, 0, 0, true⟩ = true ∧
    itemArrow ⟨"X", 100, 0, 0, true⟩ = '▲' :=
  (direction_flat_color_up_arrow "X" [some 100, some 100]
    ⟨"X", 100, 0, 0, true⟩ (by rw [parseQuote_pair]; norm_num)).2.2 rfl

/-- C2: when all three attempts raise, the stored snapshot after the
cycle equals the snapshot before it, a `RETRY_DELAY`-second sleep occurs
between each pair of consecutive attempts (and only there), the final
failure is logged, and `fetch` returns normally (it is a total
function, so no exception reaches its caller). -/
theorem fetch_three_failures_keeps_snapshot
    (outcome : ℕ → Except String (List Quote)) (st : FetchState)
    (e1 e2 e3 : String) (h1 : outcome 1 = .error e1)
    (h2 : outcome 2 = .error e2) (h3 : outcome 3 = .error e3) :
    fetch outcome st =
      { quotes := st.quotes,
        events := st.events ++
          [.logged (.attemptFailed 1 e1), .slept RETRY_DELAY,
           .logged (.attemptFailed 2 e2), .slept RETRY_DELAY,
           .logged (.attemptFailed 3 e3), .logged .allFailed] } := by
  show fetchStep outcome [1, 2, 3] st = _
  simp [fetchStep, h1, h2, h3, MAX_RETRIES, List.append_assoc]

/-- Witness for C2: three raising attempts starting from a concrete
state. -/
theorem fetch_three_failures_keeps_snapshot_witness :
    fetch (fun _ => .error "boom") ⟨[⟨"A", 1, 0, 0, true⟩], []⟩ =
      ⟨[⟨"A", 1, 0, 0, true⟩],
       [.logged (.attemptFailed 1 "boom"), .slept RETRY_DELAY,
        .logged (.attemptFailed 2 "boom"), .slept RETRY_DELAY,
        .logged (.attemptFailed 3 "boom"), .logged .allFailed]⟩ :=
  fetch_three_failures_keeps_snapshot _ _ "boom" "boom" "boom" rfl rfl rfl

/-- A 429 on any symbol of the batch makes `_fetch_all` raise, so no
quote of that attempt — including ones already fetched — is returned. -/
theorem fetch_all_error_of_rate_limited (resp : String → SymResponse)
    (symbols : List String) (s : String) (hs : s ∈ symbols)
    (hrl : fetch_one resp s = .rateLimited) :
    ∃ e, fetch_all resp symbols = .error e := by
  induction symbols with
  | nil => cases hs
  | cons a rest ih =>
    rcases List.mem_cons.mp hs with h | h
    · subst h
      exact ⟨"rate limited (429)", by simp [fetch_all, hrl]⟩
    · cases hfo : fetch_one resp a with
      | dropped =>
        obtain ⟨e, he⟩ := ih h
        exact ⟨e, by simp [fetch_all, hfo, he]⟩
      | rateLimited => exact ⟨"rate limited (429)", by simp [fetch_all, hfo]⟩
      | failed e => exact ⟨e, by simp [fetch_all, hfo]⟩
      | quote q =>
        obtain ⟨e, he⟩ := ih h
        exact ⟨e, by simp [fetch_all, hfo, he, Except.map]⟩

/-- C3: an HTTP 429 on any single symbol aborts the whole batch
(`_fetch_all` raises, publishing no quote of the attempt) and feeds
the cycle-level retry path; when attempts 1 and 2 each hit a 429 and
attempt 3 returns a nonempty quote list `qs`, the final snapshot is
exactly `qs` and exactly two `RETRY_DELAY` waits occurred. -/
theorem rate_limited_batch_aborts_then_succeeds
    (resp1 resp2 : String → SymResponse) (syms1 syms2 : List String)
    (s1 s2 : String) (outcome : ℕ → Except String (List Quote))
    (st : FetchState) (qs : List Quote)
    (hs1 : s1 ∈ syms1) (hrl1 : fetch_one resp1 s1 = .rateLimited)
    (hs2 : s2 ∈ syms2) (hrl2 : fetch_one resp2 s2 = .rateLimited)
    (h1 : outcome 1 = fetch_all resp1 syms1)
    (h2 : outcome 2 = fetch_all resp2 syms2)
    (h3 : outcome 3 = .ok qs) (hne : qs ≠ []) :
    ∃ e1 e2,
      fetch_all resp1 syms1 = .error e1 ∧
      fetch_all resp2 syms2 = .error e2 ∧
      fetch outcome st =
        { quotes := qs,
          events := st.events ++
            [.logged (.attemptFailed 1 e1), .slept RETRY_DELAY,
             .logged (.attemptFailed 2 e2), .slept RETRY_DELAY,
             .logged (.fetched qs.length)] } := by
  obtain ⟨e1, he1⟩ := fetch_all_error_of_rate_limited resp1 syms1 s1 hs1 hrl1
  obtain ⟨e2, he2⟩ := fetch_all_error_of_rate_limited resp2 syms2 s2 hs2 hrl2
  refine ⟨e1, e2, he1, he2, ?_⟩
  have h1e : outcome 1 = .error e1 := h1.trans he1
  have h2e : outcome 2 = .error e2 := h2.trans he2
  have hq : qs.isEmpty = false := by
    cases qs with
    | nil => exact absurd rfl hne
    | cons a l => rfl
  show fetchStep outcome [1, 2, 3] st = _
  simp [fetchStep, h1e, h2e, h3, hq, MAX_RETRIES, List.append_assoc]

/-- Witness for C3: one symbol, rate-limited on every request, with
attempt 3 replaced by a successful batch. -/
theorem rate_limited_batch_aborts_then_succeeds_witness :
    ∃ e1 e2,
      fetch_all (fun _ => SymResponse.rateLimited) ["A"] = .error e1 ∧
      fetch_all (fun _ => SymResponse.rateLimited) ["A"] = .error e2 ∧
      fetch
        (fun n => if n = 3 then .ok [⟨"A", 1, 0, 0, true⟩]
                  else fetch_all (fun _ => SymResponse.rateLimited) ["A"])
        ⟨[], []⟩ =
        { quotes := [⟨"A", 1, 0, 0, true⟩],
          events :=
            [.logged (.attemptFailed 1 e1), .slept RETRY_DELAY,
             .logged (.attemptFailed 2 e2), .slept RETRY_DELAY,
             .logged (.fetched 1)] } := by
  have h := rate_limited_batch_aborts_then_succeeds
    (fun _ => SymResponse.rateLimited) (fun _ => SymResponse.rateLimited)
    ["A"] ["A"] "A" "A"
    (fun n => if n = 3 then .ok [⟨"A", 1, 0, 0, true⟩]
              else fetch_all (fun _ => SymResponse.rateLimited) ["A"])
    ⟨[], []⟩ [⟨"A", 1, 0, 0, true⟩]
    (List.mem_singleton.mpr rfl) rfl (List.mem_singleton.mpr rfl) rfl
    rfl rfl rfl (by simp)
  simpa using h

/-- C10: an attempt that returns without raising but with zero quotes
never replaces the stored snapshot: the attempt publishes nothing, logs
no success, and the loop moves straight to the next attempt with no
retry sleep; if every attempt does so, the cycle ends with the snapshot
unchanged and only the final failure logged; and in general the stored
snapshot after `fetch` is either the prior snapshot or a nonempty quote
list. -/
theorem empty_result_never_published
    (outcome : ℕ → Except String (List Quote)) :
    (∀ a rest st, outcome a = .ok [] →
       fetchStep outcome (a :: rest) st = fetchStep outcome rest st) ∧
    (∀ st, outcome 1 = .ok [] → outcome 2 = .ok [] → outcome 3 = .ok [] →
       fetch outcome st =
         { quotes := st.quotes, events := st.events ++ [.logged .allFailed] }) ∧
    (∀ l st, (fetchStep outcome l st).quotes = st.quotes ∨
       (fetchStep outcome l st).quotes ≠ []) := by
  refine ⟨fun a rest st h => by simp [fetchStep, h], ?_, ?_⟩
  · intro st h1 h2 h3
    show fetchStep outcome [1, 2, 3] st = _
    simp [fetchStep, h1, h2, h3]
  · intro l
    induction l with
    | nil => intro st; left; rfl
    | cons a rest ih =>
      intro st
      cases ho : outcome a with
      | ok qs =>
        cases hq : qs.isEmpty with
        | true =>
          simp only [fetchStep, ho, hq, if_true]
          exact ih st
        | false =>
          right
          simp only [fetchStep, ho, hq, Bool.false_eq_true, if_false]
          exact fun hnil => by simp [hnil] at hq
      | error e =>
        simp only [fetchStep, ho]
        exact ih _

/-- Reading `getD` at the first of a final pair. -/
theorem list_getD_append_pair_left (l : List ℚ) (a b d : ℚ) :
    (l ++ [a, b]).getD l.length d = a := by
  induction l with
  | nil => rfl
  | cons x xs ih => simpa using ih

/-- Reading `getD` at the second of a final pair. -/
theorem list_getD_append_pair_right (l : List ℚ) (a b d : ℚ) :
    (l ++ [a, b]).getD (l.length + 1) d = b := by
  induction l with
  | nil => rfl
  | cons x xs ih => simpa using ih

/-- C5: when the two most recent valid (non-null) closes are
`[prev, cur]`, the emitted quote has
`pct = (cur - prev) / prev * 100` for `prev ≠ 0` and `pct = 0` for
`prev = 0` — the zero-previous-close case takes the guard branch and
performs no division. -/
theorem percent_change_zero_prev_safe (s : String) (closes : List (Option ℚ))
    (vs : List ℚ) (prev cur : ℚ)
    (h : closes.filterMap id = vs ++ [prev, cur]) :
    parseQuote s closes =
      some { symbol := s, price := cur, change := cur - prev,
             pct := if prev ≠ 0 then (cur - prev) / prev * 100 else 0,
             up := decide (cur - prev ≥ 0) } ∧
    (prev = 0 → ∃ q, parseQuote s closes = some q ∧ q.pct = 0) := by
  have hmain : parseQuote s closes =
      some { symbol := s, price := cur, change := cur - prev,
             pct := if prev ≠ 0 then (cur - prev) / prev * 100 else 0,
             up := decide (cur - prev ≥ 0) } := by
    simp only [parseQuote]
    rw [h]
    have hl2 : (vs ++ [prev, cur]).length = vs.length + 2 := by simp
    rw [hl2]
    rw [if_neg (by omega)]
    have e1 : vs.length + 2 - 1 = vs.length + 1 := by omega
    have e2 : vs.length + 2 - 2 = vs.length := by omega
    rw [e1, e2, list_getD_append_pair_right, list_getD_append_pair_left]
  refine ⟨hmain, fun hp => ⟨_, hmain, ?_⟩⟩
  simp [hp]

/-- Witness for C5 at closes `[0, 7]`: `pct = 0`, no division. -/
theorem percent_change_zero_prev_safe_witness :
    parseQuote "Z" [some 0, some 7] =
      some { symbol := "Z", price := 7, change := 7 - 0,
             pct := if (0 : ℚ) ≠ 0 then (7 - 0) / 0 * 100 else 0,
             up := decide ((7 : ℚ) - 0 ≥ 0) } ∧
    ((0 : ℚ) = 0 → ∃ q, parseQuote "Z" [some 0, some 7] = some q ∧ q.pct = 0) :=
  percent_change_zero_prev_safe "Z" [some 0, some 7] [] 0 7 (by simp)

/-- C6: a symbol whose response has fewer than two non-null closes is
dropped (`_fetch_one` returns `None`), and in any cycle whose symbols
each either produce a quote or are dropped, the batch succeeds with the
produced quotes listed in configured symbol order, dropped symbols simply
absent — no placeholders, no effect on the other symbols. -/
theorem dropped_symbols_skipped (resp : String → SymResponse)
    (symbols : List String)
    (hok : ∀ s ∈ symbols, fetch_one resp s = .dropped ∨
       ∃ q, fetch_one resp s = .quote q) :
    fetch_all resp symbols = .ok (symbols.filterMap (quoteOf resp)) ∧
    (∀ s closes, resp s = .chart closes → (closes.filterMap id).length < 2 →
       fetch_one resp s = .dropped) := by
  constructor
  · induction symbols with
    | nil => rfl
    | cons a rest ih =>
      have hrest := fun s hs => hok s (List.mem_cons_of_mem a hs)
      rcases hok a (List.mem_cons_self a rest) with ha | ⟨q, ha⟩
      · simp [fetch_all, ha, quoteOf, List.filterMap_cons, ih hrest]
      · simp [fetch_all, ha, quoteOf, List.filterMap_cons, ih hrest, Except.map]
  · intro s closes hc hlen
    have hp : parseQuote s closes = none := by
      simp only [parseQuote]
      rw [if_pos hlen]
    simp [fetch_one, hc, hp]

/-- Witness for C6: three symbols where `B` has a single close and is
dropped; the snapshot is the order-preserving filter of the other two. -/
theorem dropped_symbols_skipped_witness :
    fetch_all
      (fun s => if s = "B" then SymResponse.chart [some 5]
                else SymResponse.chart [some 100, some 110]) ["A", "B", "C"] =
      .ok (["A", "B", "C"].filterMap
        (quoteOf (fun s => if s = "B" then SymResponse.chart [some 5]
                           else SymResponse.chart [some 100, some 110]))) :=
  (dropped_symbols_skipped
    (fun s => if s = "B" then SymResponse.chart [some 5]
              else SymResponse.chart [some 100, some 110]) ["A", "B", "C"]
    (by
      intro s hs
      simp only [List.mem_cons, List.not_mem_nil, or_false] at hs
      rcases hs with rfl | rfl | rfl
      · exact Or.inr ⟨_, rfl⟩
      · exact Or.inl rfl
      · exact Or.inr ⟨_, rfl⟩)).1

/-- Python `%` with a positive modulus is nonnegative. -/
theorem pymod_nonneg (a b : ℚ) (hb : 0 < b) : 0 ≤ pymod a b := by
  unfold pymod
  have hfl : (⌊a / b⌋ : ℚ) ≤ a / b := Int.floor_le (a / b)
  have hmul : b * (⌊a / b⌋ : ℚ) ≤ b * (a / b) :=
    mul_le_mul_of_nonneg_left hfl hb.le
  have hba : b * (a / b) = a := by
    field_simp
  linarith

/-- Python `%` with a positive modulus is below the modulus. -/
theorem pymod_lt (a b : ℚ) (hb : 0 < b) : pymod a b < b := by
  unfold pymod
  have hfl : a / b < (⌊a / b⌋ : ℚ) + 1 := Int.lt_floor_add_one (a / b)
  have hmul : b * (a / b) < b * ((⌊a / b⌋ : ℚ) + 1) :=
    (mul_lt_mul_left hb).mpr hfl
  have hba : b * (a / b) = a := by
    field_simp
  nlinarith

/-- C1: for every scroll offset and every `content_width` in
`(0, screen_width]`, the tiling pass starting at
`(offset mod content_width) - content_width` and advancing the cursor by
`content_width` while it is `< screen_width` covers every point of
`[0, screen_width)` — no gaps. -/
theorem tiling_covers_screen (o w S p : ℚ) (hw : 0 < w) (_hwS : w ≤ S)
    (hp0 : 0 ≤ p) (hpS : p < S) : tileCovers o w S p := by
  have hm0 : 0 ≤ pymod o w := pymod_nonneg o w hw
  have hm1 : pymod o w < w := pymod_lt o w hw
  have hs_lb : -w ≤ tileStart o w := by unfold tileStart; linarith
  have hs_ub : tileStart o w < 0 := by unfold tileStart; linarith
  set s := tileStart o w with hs
  set k0 : ℤ := ⌊(p - s) / w⌋ with hk0
  have hps : 0 < p - s := by linarith
  have hk0n : 0 ≤ k0 := Int.floor_nonneg.mpr (div_nonneg hps.le hw.le)
  have hfl : (k0 : ℚ) * w ≤ p - s := by
    have h1 : (k0 : ℚ) ≤ (p - s) / w := Int.floor_le ((p - s) / w)
    calc (k0 : ℚ) * w ≤ ((p - s) / w) * w := by
          exact mul_le_mul_of_nonneg_right h1 hw.le
      _ = p - s := div_mul_cancel₀ _ hw.ne'
  have hfu : p - s < ((k0 : ℚ) + 1) * w := by
    have h1 : (p - s) / w < (k0 : ℚ) + 1 := Int.lt_floor_add_one ((p - s) / w)
    calc p - s = ((p - s) / w) * w := (div_mul_cancel₀ _ hw.ne').symm
      _ < ((k0 : ℚ) + 1) * w := by exact (mul_lt_mul_right hw).mpr h1
  refine ⟨k0.toNat, ?_, ?_, ?_⟩ <;>
    rw [show ((k0.toNat : ℕ) : ℚ) = (k0 : ℚ) by
      exact_mod_cast congrArg Int.cast (Int.toNat_of_nonneg hk0n)]
  · linarith
  · linarith
  · nlinarith

/-- Witness for C1 at offset `5`, `content_width = 3`,
`screen_width = 10`, point `7`. -/
theorem tiling_covers_screen_witness : tileCovers 5 3 10 7 :=
  tiling_covers_screen 5 3 10 7 (by norm_num) (by norm_num) (by norm_num)
    (by norm_num)

/-- Witness for C10: every attempt returns an empty quote list; the
concrete prior snapshot survives and only the final failure is logged. -/
theorem empty_result_never_published_witness :
    fetch (fun _ => .ok []) ⟨[⟨"A", 1, 0, 0, true⟩], []⟩ =
      ⟨[⟨"A", 1, 0, 0, true⟩], [.logged .allFailed]⟩ :=
  (empty_result_never_published (fun _ => .ok [])).2.1
    ⟨[⟨"A", 1, 0, 0, true⟩], []⟩ rfl rfl rfl
